import Mathlib

/-!
Verification of the hydra_profiler lifecycle/sampling core against its
specification.

The development shallowly embeds the two callback variants of the
repository:

* `src/src/hydra_profiler/psutil_profiler.py` — `MemorySampler` (a
  background RSS polling loop) and the psutil `ProfilerCallback`
  (job-scope timing plus memory statistics);
* `src/src/hydra_profiler/profiler.py` — the memray `ProfilerCallback`
  (run / job / multirun scopes around an external `Tracker`).

Timestamps are rationals (seconds since the epoch); file contents are
modelled at the JSON-value level (the spec treats JSON reading/writing as
bare I/O); the file system is an association list from path strings to
file contents, in creation order.  Python exceptions escaping a handler
are modelled with `Except`; warning log lines and tracker
`enter` / `exit` events are returned explicitly.
-/

namespace HydraProfiler

/-- JSON documents, at the value level.  Numbers are rationals. -/
inductive Json where
  | num (q : ℚ)
  | str (s : String)
  | arr (elems : List Json)
  | obj (fields : List (String × Json))

/-- The content of one file on disk: a JSON document, or bytes that do not
parse as JSON (for modelling `json.loads` failures). -/
inductive FileData where
  | json (v : Json)
  | malformed

/-- The file system: an association list from paths to contents, kept in
creation order. -/
abbrev FS := List (String × FileData)

/-- Python exceptions the profiler code can raise. -/
inductive Err where
  | fileNotFound (path : String)
  | jsonDecode (path : String)
  | keyError (key : String)
  | typeError
  | attributeError (attr : String)
deriving DecidableEq

/-- Update-or-append on an association list: the shared semantics of both
a Python dict item assignment and `Path.write_text` (overwrite the entry
in place when the key exists, else append a fresh one; the lists this
code builds never repeat a key). -/
def alSet {β : Type} : List (String × β) → String → β → List (String × β)
  | [], k, v => [(k, v)]
  | (k1, v1) :: t, k, v =>
      if k1 = k then (k, v) :: t else (k1, v1) :: alSet t k v

/-- The file write `path.write_text(...)` — overwrite or create the file at `path`. -/
def fsWrite (fs : FS) (path : String) (d : FileData) : FS :=
  alSet fs path d

/-- Reading `fields[k]` on a JSON object's field list. -/
def getField (fields : List (String × Json)) (k : String) : Option Json :=
  List.lookup k fields

/-- Assigning `fields[k] = v` on a JSON object's field list. -/
def setField (fields : List (String × Json)) (k : String) (v : Json) :
    List (String × Json) :=
  alSet fields k v

/-! ## MemorySampler (psutil_profiler.py lines 18-54) -/

/-- One sample appended by the `_sample` loop:
`self.data.append(...)` with a timestamp and the RSS byte count
(psutil_profiler.py lines 29-34).  RSS is a natural number of bytes. -/
structure MemorySample where
  timestamp : ℚ
  rss : ℕ
deriving DecidableEq

/-- The `MemorySampler` state (psutil_profiler.py lines 19-27): the sampling
`interval`, the accumulated `data` list, the `_running` flag (field
`running`) and the `_thread` handle (field `thread`; `some ()` stands for
a live thread object, `none` for Python `None`). -/
structure MemorySampler where
  interval : ℚ
  data : List MemorySample
  running : Bool
  thread : Option Unit
deriving DecidableEq

/-- Constructor `MemorySampler.__init__(interval)`: empty data, not running, no
thread. -/
def MemorySampler.init (interval : ℚ) : MemorySampler :=
  ⟨interval, [], false, none⟩

/-- One iteration of the `_sample` loop body (psutil_profiler.py lines
29-34): while `_running` holds, append one sample; once `_running` is
false the loop has exited and nothing more is appended. -/
def MemorySampler.sampleTick (s : MemorySampler) (now : ℚ) (rss : ℕ) :
    MemorySampler :=
  if s.running then { s with data := s.data ++ [⟨now, rss⟩] } else s

/-- A run of the background thread: the loop iterations it performs, in
order. -/
def MemorySampler.runTicks (s : MemorySampler) (ticks : List (ℚ × ℕ)) :
    MemorySampler :=
  ticks.foldl (fun a t => a.sampleTick t.1 t.2) s

/-- Method `MemorySampler.start` (psutil_profiler.py lines 36-40): when not
already running, set `_running` and spawn the daemon thread; otherwise a
no-op. -/
def MemorySampler.start (s : MemorySampler) : MemorySampler :=
  if s.running then s else { s with running := true, thread := some () }

/-- Method `MemorySampler.stop` (psutil_profiler.py lines 42-46): clear
`_running`; when a thread handle exists, join it (the join returns only
after the loop has exited, so no further iteration appends after `stop`
returns) and set `_thread = None`.  Either way the resulting state has no
running flag and no thread handle. -/
def MemorySampler.stop (s : MemorySampler) : MemorySampler :=
  { s with running := false, thread := none }

/-- One start/sample/stop episode on a sampler: `start()`, the loop
iterations the background thread performs, then `stop()`. -/
def MemorySampler.cycle (s : MemorySampler) (ticks : List (ℚ × ℕ)) :
    MemorySampler :=
  ((s.start).runTicks ticks).stop

/-- The result of `MemorySampler.get_stats`. -/
structure MemoryStats where
  average : ℚ
  peak : ℕ
  data : List MemorySample
deriving DecidableEq

/-- Method `MemorySampler.get_stats` (psutil_profiler.py lines 48-54): on empty
data the fixed empty result; otherwise the mean of the RSS values, their
maximum (Python `max` over the nonempty list, modelled as a fold), and
the data list itself. -/
def MemorySampler.get_stats (s : MemorySampler) : MemoryStats :=
  if s.data = [] then ⟨0, 0, []⟩
  else
    let rss_values : List ℕ := s.data.map (fun p => p.rss)
    ⟨((rss_values.sum : ℕ) : ℚ) / (rss_values.length : ℚ),
      rss_values.foldl max 0,
      s.data⟩

/-! ## Timing records (the duplicated timing blocks of both variants) -/

/-- The scope-start timing write every `on_*_start` handler performs:
`timings = dict(start = st)` dumped to `path`. -/
def timingBegin (fs : FS) (now : ℚ) (path : String) : FS :=
  fsWrite fs path (.json (.obj [("start", .num now)]))

/-- The scope-end timing read-modify-write every `on_*_end` handler
performs: `json.loads(path.read_text())`, then set `end`, then set
`duration_seconds` to `end - start`, then rewrite the file.  Raises
FileNotFoundError when the file is absent, JSONDecodeError when it does
not parse, TypeError when the document is not an object (item assignment
on a non-dict) or `start` is not a timestamp, KeyError when `start` is
missing.  Nothing catches these, so they surface to the caller. -/
def finalizeTiming (fs : FS) (now : ℚ) (path : String) :
    Except Err (List (String × Json) × FS) :=
  match List.lookup path fs with
  | none => .error (.fileNotFound path)
  | some .malformed => .error (.jsonDecode path)
  | some (.json (.obj fields)) =>
      let fields1 := setField fields "end" (.num now)
      match getField fields1 "start" with
      | none => .error (.keyError "start")
      | some (.num startTs) =>
          let fields2 := setField fields1 "duration_seconds" (.num (now - startTs))
          .ok (fields2, fsWrite fs path (.json (.obj fields2)))
      | some _ => .error .typeError
  | some (.json _) => .error .typeError

/-! ## The memray variant (profiler.py) -/

/-- A live memray `Tracker` handle: the artifact path it records to and
its `follow_fork` flag. -/
structure Tracker where
  path : String
  follow_fork : Bool
deriving DecidableEq

/-- Enter/exit events on the external tracker adapter
(`Tracker.__enter__` / `Tracker.__exit__`). -/
inductive TrackerEvent where
  | opened (t : Tracker)
  | closed (t : Tracker)
deriving DecidableEq

/-- The memray variant's callback state (profiler.py lines 16-18): one
single `memray_tracker` attribute, shared by all three scope kinds. -/
structure MemrayCallback where
  memray_tracker : Option Tracker
deriving DecidableEq

/-- Constructor `ProfilerCallback.__init__` of the memray variant (profiler.py lines
17-18): `self.memray_tracker = None`. -/
def MemrayCallback.init : MemrayCallback :=
  ⟨none⟩

/-- The observable result of one handler call: the warnings it logged,
the tracker events it performed, and either the updated state with the
updated file system or the Python exception that escaped. -/
structure Eff (σ : Type) where
  warnings : List String
  events : List TrackerEvent
  outcome : Except Err (σ × FS)

/-- Handler `on_multirun_start` (profiler.py lines 20-29): open a tracker on
`multirun.memray` with `follow_fork=True`, store it in the shared
attribute, write the start-only timing record. -/
def on_multirun_start (c : MemrayCallback) (fs : FS) (now : ℚ)
    (dir : String) : Eff MemrayCallback :=
  let t : Tracker := ⟨dir ++ "/multirun.memray", true⟩
  ⟨[], [.opened t],
    .ok ({ c with memray_tracker := some t },
      timingBegin fs now (dir ++ "/multirun.timing.json"))⟩

/-- Handler `on_run_start` (profiler.py lines 45-55): open a tracker on
`run.memray`, store it in the shared attribute, write the start-only
timing record. -/
def on_run_start (c : MemrayCallback) (fs : FS) (now : ℚ)
    (dir : String) : Eff MemrayCallback :=
  let t : Tracker := ⟨dir ++ "/run.memray", false⟩
  ⟨[], [.opened t],
    .ok ({ c with memray_tracker := some t },
      timingBegin fs now (dir ++ "/run.timing.json"))⟩

/-- Handler `on_job_start` of the memray variant (profiler.py lines 71-81): open
a tracker on `job.{job_name}.memray`, store it in the shared attribute
(overwriting whatever handle was there), write the start-only timing
record at `job.{job_name}.timing.json`. -/
def on_job_start (c : MemrayCallback) (fs : FS) (now : ℚ)
    (dir jobName : String) : Eff MemrayCallback :=
  let t : Tracker := ⟨dir ++ "/job." ++ jobName ++ ".memray", false⟩
  ⟨[], [.opened t],
    .ok ({ c with memray_tracker := some t },
      timingBegin fs now (dir ++ "/job." ++ jobName ++ ".timing.json"))⟩

/-- Handler `on_multirun_end` (profiler.py lines 31-43): when the shared tracker
attribute is `None` log a warning, otherwise exit the handle it currently
holds; then the timing read-modify-write, whose exceptions propagate.
The attribute itself is never cleared. -/
def on_multirun_end (c : MemrayCallback) (fs : FS) (now : ℚ)
    (dir : String) : Eff MemrayCallback :=
  let warns := match c.memray_tracker with
    | none => ["ProfilerCallback.on_multirun_end: self.memray_tracker is None!"]
    | some _ => []
  let events := match c.memray_tracker with
    | none => []
    | some t => [.closed t]
  match finalizeTiming fs now (dir ++ "/multirun.timing.json") with
  | .error e => ⟨warns, events, .error e⟩
  | .ok (_, fs1) => ⟨warns, events, .ok (c, fs1)⟩

/-- Handler `on_run_end` (profiler.py lines 57-69): same shape as
`on_multirun_end` over `run.timing.json`. -/
def on_run_end (c : MemrayCallback) (fs : FS) (now : ℚ)
    (dir : String) : Eff MemrayCallback :=
  let warns := match c.memray_tracker with
    | none => ["ProfilerCallback.on_run_end: self.memray_tracker is None!"]
    | some _ => []
  let events := match c.memray_tracker with
    | none => []
    | some t => [.closed t]
  match finalizeTiming fs now (dir ++ "/run.timing.json") with
  | .error e => ⟨warns, events, .error e⟩
  | .ok (_, fs1) => ⟨warns, events, .ok (c, fs1)⟩

/-- Handler `on_job_end` of the memray variant (profiler.py lines 83-96): same
shape over `job.{job_name}.timing.json`. -/
def on_job_end (c : MemrayCallback) (fs : FS) (now : ℚ)
    (dir jobName : String) : Eff MemrayCallback :=
  let warns := match c.memray_tracker with
    | none => ["ProfilerCallback.on_job_end: self.memray_tracker is None!"]
    | some _ => []
  let events := match c.memray_tracker with
    | none => []
    | some t => [.closed t]
  match finalizeTiming fs now (dir ++ "/job." ++ jobName ++ ".timing.json") with
  | .error e => ⟨warns, events, .error e⟩
  | .ok (_, fs1) => ⟨warns, events, .ok (c, fs1)⟩

/-! ## The psutil variant (psutil_profiler.py lines 57-103) -/

/-- The psutil variant's callback state (psutil_profiler.py lines
57-59): `sampling_interval` is set in `__init__`; the `mem_sampler`
attribute does not exist until `on_job_start` first assigns it (`none`
models the absent attribute, whose read raises AttributeError). -/
structure PsutilCallback where
  sampling_interval : ℚ
  mem_sampler : Option MemorySampler
deriving DecidableEq

/-- Constructor `ProfilerCallback.__init__(sampling_interval)` of the psutil variant
(psutil_profiler.py lines 58-59). -/
def PsutilCallback.init (sampling_interval : ℚ) : PsutilCallback :=
  ⟨sampling_interval, none⟩

/-- Handler `on_job_start` of the psutil variant (psutil_profiler.py lines
61-74): assign a fresh `MemorySampler`, write the start-only timing
record at `{job_name}.timing.json`, start the sampler. -/
def psutil_on_job_start (c : PsutilCallback) (fs : FS) (now : ℚ)
    (dir jobName : String) : Eff PsutilCallback :=
  let smp := MemorySampler.init c.sampling_interval
  let fs1 := timingBegin fs now (dir ++ "/" ++ jobName ++ ".timing.json")
  ⟨[], [], .ok ({ c with mem_sampler := some smp.start }, fs1)⟩

/-- The background sampling that happens between start and end: the
daemon thread's loop iterations applied to whatever sampler the callback
currently holds. -/
def PsutilCallback.applyTicks (c : PsutilCallback) (ticks : List (ℚ × ℕ)) :
    PsutilCallback :=
  { c with mem_sampler := c.mem_sampler.map (fun s => s.runTicks ticks) }

/-- The JSON rendering of one memory sample inside the profile artifact
(psutil_profiler.py lines 96-100 via `get_stats`). -/
def sampleJson (p : ℚ × ℕ) : Json :=
  .obj [("timestamp", .num p.1), ("rss", .num (p.2 : ℚ))]

/-- Handler `on_job_end` of the psutil variant (psutil_profiler.py lines
76-103): `self.mem_sampler.stop()` — an AttributeError when
`on_job_start` never assigned the attribute — then `get_stats`, the
timing read-modify-write at `{job_name}.timing.json`, and the
consolidated `{job_name}.profile.json` artifact. -/
def psutil_on_job_end (c : PsutilCallback) (fs : FS) (now : ℚ)
    (dir jobName : String) : Eff PsutilCallback :=
  match c.mem_sampler with
  | none => ⟨[], [], .error (.attributeError "mem_sampler")⟩
  | some smp =>
    let smp1 := smp.stop
    let stats := smp1.get_stats
    match finalizeTiming fs now (dir ++ "/" ++ jobName ++ ".timing.json") with
    | .error e => ⟨[], [], .error e⟩
    | .ok (timings, fs1) =>
      let result := Json.obj
        [("timing", .obj timings),
         ("memory_stats", .obj
           [("average_rss_bytes", .num stats.average),
            ("peak_rss_bytes", .num (stats.peak : ℚ)),
            ("samples", .arr (stats.data.map
              (fun p => Json.obj
                [("timestamp", .num p.timestamp), ("rss", .num (p.rss : ℚ))])))])]
      let fs2 := fsWrite fs1 (dir ++ "/" ++ jobName ++ ".profile.json") (.json result)
      ⟨[], [], .ok ({ c with mem_sampler := some smp1 }, fs2)⟩

/-- A matched job-scope pair in the psutil variant: `on_job_start` on a
freshly constructed callback, the background sampling ticks, then
`on_job_end`; warnings and events of the two calls concatenate. -/
def runJobScope (interval : ℚ) (fs : FS) (startTime : ℚ)
    (ticks : List (ℚ × ℕ)) (endTime : ℚ) (dir jobName : String) :
    Eff PsutilCallback :=
  match psutil_on_job_start (PsutilCallback.init interval) fs startTime dir jobName with
  | ⟨w1, e1, .error err⟩ => ⟨w1, e1, .error err⟩
  | ⟨w1, e1, .ok (c1, fs1)⟩ =>
    match psutil_on_job_end (c1.applyTicks ticks) fs1 endTime dir jobName with
    | ⟨w2, e2, out⟩ => ⟨w1 ++ w2, e1 ++ e2, out⟩

/-- The list of file paths present after a handler call (empty when the
call raised). -/
def effPaths {σ : Type} (e : Eff σ) : List String :=
  match e.outcome with
  | .ok (_, fs) => fs.map Prod.fst
  | .error _ => []

/-! ## Worker-image copies (spec-modelled) -/

/-- Modelled from the spec: the "snapshot for transfer" producing the
controller copy handed to a new process image.  `src/` ships no
serialization hook; the controller present in a worker process is the one
the host framework constructs afresh through `__init__` (profiler.py
lines 17-18), and the spec's fork-safety invariant reads "the copy always
starts with a null/absent handle". -/
def MemrayCallback.exportForWorker (_c : MemrayCallback) : MemrayCallback :=
  MemrayCallback.init

/-- Modelled from the spec: the worker-image copy of the psutil variant's
callback.  `__init__` (psutil_profiler.py lines 58-59) keeps the
configuration value and creates no live sampler attribute. -/
def PsutilCallback.exportForWorker (c : PsutilCallback) : PsutilCallback :=
  PsutilCallback.init c.sampling_interval

/-! ## Association-list lemmas -/

theorem lookup_alSet_self {β : Type} (l : List (String × β)) (k : String) (v : β) :
    List.lookup k (alSet l k v) = some v := by
  induction l with
  | nil => simp [alSet, List.lookup]
  | cons kv t ih =>
    rcases kv with ⟨k1, v1⟩
    by_cases hk : k1 = k
    · subst hk
      simp [alSet, List.lookup]
    · have hne : (k == k1) = false := by
        simp only [beq_eq_false_iff_ne, ne_eq]
        exact fun e => hk e.symm
      simp [alSet, hk, List.lookup, hne, ih]

theorem lookup_alSet_ne {β : Type} (l : List (String × β)) (k k' : String)
    (v : β) (h : k ≠ k') :
    List.lookup k (alSet l k' v) = List.lookup k l := by
  induction l with
  | nil =>
    have hne : (k == k') = false := by simp [beq_eq_false_iff_ne, h]
    simp [alSet, List.lookup, hne]
  | cons kv t ih =>
    rcases kv with ⟨k1, v1⟩
    by_cases hk : k1 = k'
    · subst hk
      have hne : (k == k1) = false := by simp [beq_eq_false_iff_ne, h]
      simp [alSet, List.lookup, hne]
    · by_cases hkk : k = k1
      · subst hkk
        simp [alSet, hk, List.lookup]
      · have hne : (k == k1) = false := by simp [beq_eq_false_iff_ne, hkk]
        simp [alSet, hk, List.lookup, hne, ih]

/-- Left cancellation for string append, through the character lists. -/
theorem string_append_left_cancel {a b c : String} (h : a ++ b = a ++ c) :
    b = c := by
  have hd : (a ++ b).data = (a ++ c).data := by rw [h]
  simp only [String.data_append] at hd
  exact String.ext (List.append_cancel_left hd)

/-! ## MemorySampler lemmas -/

theorem runTicks_not_running (s : MemorySampler) (ticks : List (ℚ × ℕ))
    (h : s.running = false) : s.runTicks ticks = s := by
  induction ticks with
  | nil => rfl
  | cons t ts ih =>
    have h1 : s.sampleTick t.1 t.2 = s := by
      simp [MemorySampler.sampleTick, h]
    show (s.sampleTick t.1 t.2).runTicks ts = s
    rw [h1]
    exact ih

theorem runTicks_running (s : MemorySampler) (ticks : List (ℚ × ℕ))
    (h : s.running = true) :
    s.runTicks ticks =
      { s with data := s.data ++ ticks.map (fun p => ⟨p.1, p.2⟩) } := by
  induction ticks generalizing s with
  | nil => simp [MemorySampler.runTicks]
  | cons t ts ih =>
    have h1 : s.sampleTick t.1 t.2 = { s with data := s.data ++ [⟨t.1, t.2⟩] } := by
      simp [MemorySampler.sampleTick, h]
    show (s.sampleTick t.1 t.2).runTicks ts = _
    rw [h1,
      ih { s with data := s.data ++ [⟨t.1, t.2⟩] }
        (show ({ s with data := s.data ++ [⟨t.1, t.2⟩] } :
          MemorySampler).running = true from h)]
    simp

theorem start_running (s : MemorySampler) :
    (s.start).running = true ∧ (s.start).data = s.data ∧
      (s.start).interval = s.interval := by
  by_cases h : s.running <;> simp [MemorySampler.start, h]

theorem get_stats_data (s : MemorySampler) : (s.get_stats).data = s.data := by
  unfold MemorySampler.get_stats
  by_cases h : s.data = []
  · simp [h]
  · simp [h]

theorem foldl_max_le (l : List ℕ) (a : ℕ) :
    (∀ r ∈ l, r ≤ l.foldl max a) ∧ a ≤ l.foldl max a := by
  induction l generalizing a with
  | nil => simp
  | cons x xs ih =>
    refine ⟨?_, ?_⟩
    · intro r hr
      rcases List.mem_cons.mp hr with h | h
      · subst h
        exact le_trans (le_max_right a r) (ih (max a r)).2
      · exact (ih (max a x)).1 r h
    · exact le_trans (le_max_left a x) (ih (max a x)).2

theorem foldl_max_mem (l : List ℕ) (a : ℕ) :
    l.foldl max a ∈ l ∨ l.foldl max a = a := by
  induction l generalizing a with
  | nil => right; rfl
  | cons x xs ih =>
    show xs.foldl max (max a x) ∈ x :: xs ∨ xs.foldl max (max a x) = a
    rcases ih (max a x) with h | h
    · exact Or.inl (List.mem_cons_of_mem x h)
    · rcases max_choice a x with hm | hm
      · rw [h, hm]
        right; rfl
      · rw [h, hm]
        exact Or.inl (List.mem_cons_self x xs)

/-! ## Claim theorems -/

/-- C3: the controller copy handed to a new process image has an absent
tracker handle and an absent sampler handle, whatever the original's
state; the original is untouched (the snapshot is a pure function of it).
The snapshot itself is modelled from the spec, since the repository ships
no serialization hook: the worker-image controller is the one `__init__`
builds. -/
theorem C3_fork_safety :
    ∀ (c : MemrayCallback) (p : PsutilCallback),
      (c.exportForWorker).memray_tracker = none ∧
      (p.exportForWorker).mem_sampler = none ∧
      (p.exportForWorker).sampling_interval = p.sampling_interval :=
  fun _ _ => ⟨rfl, rfl, rfl⟩

/-- C6: `get_stats` on zero samples returns exactly
`average = 0, peak = 0, data = []`; on nonempty data its `average` times
the sample count is the exact sum of the RSS values (i.e. it is the exact
arithmetic mean), its `peak` is one of the RSS values and bounds them
all (i.e. it is their maximum), and its `data` is the full ordered sample
sequence. -/
theorem C6_get_stats_exact (s : MemorySampler) :
    (s.data = [] → s.get_stats = ⟨0, 0, []⟩) ∧
    (s.data ≠ [] →
      (s.get_stats).average * ((s.data.length : ℚ)) =
        (s.data.map (fun p => (p.rss : ℚ))).sum ∧
      ((s.get_stats).peak ∈ s.data.map (fun p => p.rss) ∧
        ∀ r ∈ s.data.map (fun p => p.rss), r ≤ (s.get_stats).peak) ∧
      (s.get_stats).data = s.data) := by
  constructor
  · intro h
    simp [MemorySampler.get_stats, h]
  · intro h
    have hlen : ((s.data.length : ℚ)) ≠ 0 :=
      Nat.cast_ne_zero.mpr (List.length_pos.mpr h).ne'
    refine ⟨?_, ⟨?_, ?_⟩, get_stats_data s⟩
    · simp only [MemorySampler.get_stats, if_neg h]
      rw [List.length_map, div_mul_cancel₀ _ hlen, Nat.cast_list_sum,
        List.map_map]
      rfl
    · simp only [MemorySampler.get_stats, if_neg h]
      have hne : s.data.map (fun p => p.rss) ≠ [] := by
        simpa using h
      rcases foldl_max_mem (s.data.map (fun p => p.rss)) 0 with hm | hm
      · exact hm
      · obtain ⟨x, xs, hx⟩ := List.exists_cons_of_ne_nil hne
        have hx0 : x ≤ 0 := by
          have := (foldl_max_le (s.data.map (fun p => p.rss)) 0).1 x
            (by rw [hx]; exact List.mem_cons_self x xs)
          rwa [hm] at this
        rw [hm, hx]
        have : x = 0 := Nat.le_zero.mp hx0
        rw [← this]
        exact List.mem_cons_self x xs
    · intro r hr
      simp only [MemorySampler.get_stats, if_neg h]
      exact (foldl_max_le (s.data.map (fun p => p.rss)) 0).1 r hr

/-- C6 witness: the theorem applied at a concrete empty sampler and at a
concrete two-sample sampler. -/
theorem C6_get_stats_exact_witness :
    (MemorySampler.init 1).get_stats = ⟨0, 0, []⟩ ∧
    ((⟨1, [⟨0, 5⟩, ⟨1, 3⟩], false, none⟩ : MemorySampler).get_stats).data =
      [⟨0, 5⟩, ⟨1, 3⟩] :=
  ⟨(C6_get_stats_exact (MemorySampler.init 1)).1 rfl,
    ((C6_get_stats_exact ⟨1, [⟨0, 5⟩, ⟨1, 3⟩], false, none⟩).2 (by decide)).2.2⟩

/-- C9: `stop` is idempotent and safe without a prior `start`: a second
`stop` changes nothing (and raises nothing — every transition is total),
`stop` appends no sample, no loop iteration after `stop` appends a
sample, and `stop` on a freshly constructed sampler is a no-op. -/
theorem C9_stop_idempotent_and_safe :
    ∀ (s : MemorySampler) (ticks : List (ℚ × ℕ)) (i : ℚ),
      s.stop.stop = s.stop ∧
      (s.stop).data = s.data ∧
      (s.stop).runTicks ticks = s.stop ∧
      (MemorySampler.init i).stop = MemorySampler.init i :=
  fun _ ticks _ => ⟨rfl, rfl, runTicks_not_running _ ticks rfl, rfl⟩

/-- C10: no operation clears the sample buffer: a start/sample/stop cycle
appends its samples after whatever the buffer already holds, two
consecutive cycles on a fresh sampler leave the concatenation of their
samples in order, and `get_stats` is computed over that combined list. -/
theorem C10_buffer_accumulates :
    ∀ (s : MemorySampler) (ticks l1 l2 : List (ℚ × ℕ)) (i : ℚ),
      (s.cycle ticks).data = s.data ++ ticks.map (fun p => ⟨p.1, p.2⟩) ∧
      (((MemorySampler.init i).cycle l1).cycle l2).data =
        (l1 ++ l2).map (fun p => ⟨p.1, p.2⟩) ∧
      (l1 ++ l2 ≠ [] →
        ((((MemorySampler.init i).cycle l1).cycle l2).get_stats).data =
          (l1 ++ l2).map (fun p => ⟨p.1, p.2⟩)) := by
  intro s ticks l1 l2 i
  have key : ∀ (u : MemorySampler) (l : List (ℚ × ℕ)),
      (u.cycle l).data = u.data ++ l.map (fun p => ⟨p.1, p.2⟩) := by
    intro u l
    obtain ⟨hr, hd, _⟩ := start_running u
    unfold MemorySampler.cycle
    rw [runTicks_running _ _ hr]
    simp [MemorySampler.stop, hd]
  have h2 : (((MemorySampler.init i).cycle l1).cycle l2).data =
      (l1 ++ l2).map (fun p => ⟨p.1, p.2⟩) := by
    rw [key, key]
    simp [MemorySampler.init]
  refine ⟨key s ticks, h2, ?_⟩
  intro hne
  rw [get_stats_data, h2]

/-- C10 witness: the theorem applied at a concrete pair of cycles. -/
theorem C10_buffer_accumulates_witness :
    ((((MemorySampler.init 1).cycle [(0, 5)]).cycle [(1, 7)]).get_stats).data =
      [⟨0, 5⟩, ⟨1, 7⟩] := by
  have h := (C10_buffer_accumulates (MemorySampler.init 1) [] [(0, 5)] [(1, 7)] 1).2.2
    (by decide)
  simpa using h

/-- Finalizing a timing record produced by the scope-start write: the
record is rewritten in full with `start` preserved, `end` set, and
`duration_seconds = e - s`. -/
theorem finalizeTiming_begin (fs : FS) (path : String) (s e : ℚ) :
    finalizeTiming (timingBegin fs s path) e path =
      .ok ([("start", .num s), ("end", .num e),
            ("duration_seconds", .num (e - s))],
        fsWrite (timingBegin fs s path) path
          (.json (.obj [("start", .num s), ("end", .num e),
            ("duration_seconds", .num (e - s))]))) := by
  have hl : List.lookup path (timingBegin fs s path) =
      some (.json (.obj [("start", .num s)])) :=
    lookup_alSet_self fs path _
  unfold finalizeTiming
  rw [hl]
  rfl

/-- C7: a timing record written by the scope-start write (`start` only)
and finalized by the scope-end read-modify-write at a later timestamp is
rewritten in full: `start` is preserved unchanged, `end` is the end
timestamp, and `duration_seconds` is exactly `e - s`, which is
non-negative. -/
theorem C7_timing_roundtrip :
    ∀ (fs : FS) (path : String) (s e : ℚ), s ≤ e →
      finalizeTiming (timingBegin fs s path) e path =
        .ok ([("start", .num s), ("end", .num e),
              ("duration_seconds", .num (e - s))],
          fsWrite (timingBegin fs s path) path
            (.json (.obj [("start", .num s), ("end", .num e),
              ("duration_seconds", .num (e - s))]))) ∧
      (0 : ℚ) ≤ e - s := by
  intro fs path s e h
  exact ⟨finalizeTiming_begin fs path s e, by linarith⟩

/-- C7 witness: the theorem applied at a concrete record. -/
theorem C7_timing_roundtrip_witness :
    finalizeTiming (timingBegin [] 0 "p") 2 "p" =
      .ok ([("start", .num 0), ("end", .num 2),
            ("duration_seconds", .num (2 - 0))],
        fsWrite (timingBegin [] 0 "p") "p"
          (.json (.obj [("start", .num 0), ("end", .num 2),
            ("duration_seconds", .num (2 - 0))]))) ∧
    (0 : ℚ) ≤ 2 - 0 :=
  C7_timing_roundtrip [] "p" 0 2 (by norm_num)

/-- C8: the scope-end timing finalization fails with an error that
surfaces to the caller (the handler's outcome is that error, nothing
swallows it) whenever the persisted record is missing, does not parse,
or lacks the `start` field. -/
theorem C8_timing_finalize_errors :
    ∀ (c : PsutilCallback) (smp : MemorySampler) (fs : FS) (now : ℚ)
      (dir name : String), c.mem_sampler = some smp →
      (List.lookup (dir ++ "/" ++ name ++ ".timing.json") fs = none →
        (psutil_on_job_end c fs now dir name).outcome =
          .error (.fileNotFound (dir ++ "/" ++ name ++ ".timing.json"))) ∧
      (List.lookup (dir ++ "/" ++ name ++ ".timing.json") fs =
          some .malformed →
        (psutil_on_job_end c fs now dir name).outcome =
          .error (.jsonDecode (dir ++ "/" ++ name ++ ".timing.json"))) ∧
      (∀ fields, List.lookup (dir ++ "/" ++ name ++ ".timing.json") fs =
          some (.json (.obj fields)) →
        List.lookup "start" fields = none →
        (psutil_on_job_end c fs now dir name).outcome =
          .error (.keyError "start")) := by
  intro c smp fs now dir name hs
  refine ⟨?_, ?_, ?_⟩
  · intro hl
    simp [psutil_on_job_end, hs, finalizeTiming, hl]
  · intro hl
    simp [psutil_on_job_end, hs, finalizeTiming, hl]
  · intro fields hl hstart
    have hget : getField (setField fields "end" (.num now)) "start" = none := by
      unfold getField setField
      rw [lookup_alSet_ne fields "start" "end" _ (by decide)]
      exact hstart
    simp [psutil_on_job_end, hs, finalizeTiming, hl, hget]

/-- C8 witness: the theorem applied at the three concrete failure
shapes. -/
theorem C8_timing_finalize_errors_witness :
    ((psutil_on_job_end ⟨1, some (MemorySampler.init 1)⟩ [] 0 "d" "j").outcome =
      .error (.fileNotFound ("d" ++ "/" ++ "j" ++ ".timing.json"))) ∧
    ((psutil_on_job_end ⟨1, some (MemorySampler.init 1)⟩
        [("d" ++ "/" ++ "j" ++ ".timing.json", .malformed)] 0 "d" "j").outcome =
      .error (.jsonDecode ("d" ++ "/" ++ "j" ++ ".timing.json"))) ∧
    ((psutil_on_job_end ⟨1, some (MemorySampler.init 1)⟩
        [("d" ++ "/" ++ "j" ++ ".timing.json",
          .json (.obj [("other", .num 3)]))] 0 "d" "j").outcome =
      .error (.keyError "start")) :=
  ⟨(C8_timing_finalize_errors ⟨1, some (MemorySampler.init 1)⟩
      (MemorySampler.init 1) [] 0 "d" "j" rfl).1 rfl,
   (C8_timing_finalize_errors ⟨1, some (MemorySampler.init 1)⟩
      (MemorySampler.init 1) [("d" ++ "/" ++ "j" ++ ".timing.json", .malformed)]
      0 "d" "j" rfl).2.1 rfl,
   (C8_timing_finalize_errors ⟨1, some (MemorySampler.init 1)⟩
      (MemorySampler.init 1)
      [("d" ++ "/" ++ "j" ++ ".timing.json", .json (.obj [("other", .num 3)]))]
      0 "d" "j" rfl).2.2 [("other", .num 3)] rfl rfl⟩

/-- C1 counterexample: in the psutil variant, `on_job_end` with no prior
`on_job_start` logs no warning and raises (AttributeError on the absent
`mem_sampler`), contradicting "logs a warning and does not raise any
error". -/
theorem C1_counterexample :
    (psutil_on_job_end (PsutilCallback.init 1) [] 5 "d" "j").warnings = [] ∧
    (psutil_on_job_end (PsutilCallback.init 1) [] 5 "d" "j").outcome =
      .error (.attributeError "mem_sampler") :=
  ⟨rfl, rfl⟩

/-- C1 (amended): an end called with no prior matching start raises.  In
the memray variant each end handler logs the warning and skips the
tracker exit, but its unconditional timing read-modify-write raises
FileNotFoundError because the start-side timing record does not exist; in
the psutil variant `on_job_end` raises AttributeError on the absent
sampler attribute before logging anything. -/
theorem C1_end_without_start_raises :
    (∀ (fs : FS) (now : ℚ) (dir : String),
      List.lookup (dir ++ "/run.timing.json") fs = none →
        (on_run_end MemrayCallback.init fs now dir).warnings =
          ["ProfilerCallback.on_run_end: self.memray_tracker is None!"] ∧
        (on_run_end MemrayCallback.init fs now dir).events = [] ∧
        (on_run_end MemrayCallback.init fs now dir).outcome =
          .error (.fileNotFound (dir ++ "/run.timing.json"))) ∧
    (∀ (fs : FS) (now : ℚ) (dir : String),
      List.lookup (dir ++ "/multirun.timing.json") fs = none →
        (on_multirun_end MemrayCallback.init fs now dir).warnings =
          ["ProfilerCallback.on_multirun_end: self.memray_tracker is None!"] ∧
        (on_multirun_end MemrayCallback.init fs now dir).events = [] ∧
        (on_multirun_end MemrayCallback.init fs now dir).outcome =
          .error (.fileNotFound (dir ++ "/multirun.timing.json"))) ∧
    (∀ (fs : FS) (now : ℚ) (dir name : String),
      List.lookup (dir ++ "/job." ++ name ++ ".timing.json") fs = none →
        (on_job_end MemrayCallback.init fs now dir name).warnings =
          ["ProfilerCallback.on_job_end: self.memray_tracker is None!"] ∧
        (on_job_end MemrayCallback.init fs now dir name).events = [] ∧
        (on_job_end MemrayCallback.init fs now dir name).outcome =
          .error (.fileNotFound (dir ++ "/job." ++ name ++ ".timing.json"))) ∧
    (∀ (c : PsutilCallback) (fs : FS) (now : ℚ) (dir name : String),
      c.mem_sampler = none →
        psutil_on_job_end c fs now dir name =
          ⟨[], [], .error (.attributeError "mem_sampler")⟩) := by
  refine ⟨?_, ?_, ?_, ?_⟩
  · intro fs now dir hl
    refine ⟨?_, ?_, ?_⟩ <;> simp [on_run_end, MemrayCallback.init, finalizeTiming, hl]
  · intro fs now dir hl
    refine ⟨?_, ?_, ?_⟩ <;> simp [on_multirun_end, MemrayCallback.init, finalizeTiming, hl]
  · intro fs now dir name hl
    refine ⟨?_, ?_, ?_⟩ <;> simp [on_job_end, MemrayCallback.init, finalizeTiming, hl]
  · intro c fs now dir name hs
    simp [psutil_on_job_end, hs]

/-- C1 witness: the amended theorem applied at empty file systems. -/
theorem C1_end_without_start_raises_witness :
    (on_run_end MemrayCallback.init [] 0 "d").outcome =
      .error (.fileNotFound ("d" ++ "/run.timing.json")) ∧
    (on_multirun_end MemrayCallback.init [] 0 "d").outcome =
      .error (.fileNotFound ("d" ++ "/multirun.timing.json")) ∧
    (on_job_end MemrayCallback.init [] 0 "d" "j").outcome =
      .error (.fileNotFound ("d" ++ "/job." ++ "j" ++ ".timing.json")) ∧
    psutil_on_job_end (PsutilCallback.init 2) [] 0 "d" "j" =
      ⟨[], [], .error (.attributeError "mem_sampler")⟩ :=
  ⟨(C1_end_without_start_raises.1 [] 0 "d" rfl).2.2,
   (C1_end_without_start_raises.2.1 [] 0 "d" rfl).2.2,
   (C1_end_without_start_raises.2.2.1 [] 0 "d" "j" rfl).2.2,
   C1_end_without_start_raises.2.2.2 (PsutilCallback.init 2) [] 0 "d" "j" rfl⟩

/-- C2 counterexample: a second `on_run_start` while the run scope is
already tracking (the state produced by the first start) succeeds — no
invariant-violation error is raised — and silently resets the tracking
state. -/
theorem C2_counterexample :
    (on_run_start MemrayCallback.init [] 0 "d").outcome =
      .ok (⟨some ⟨"d" ++ "/run.memray", false⟩⟩,
        [("d" ++ "/run.timing.json", .json (.obj [("start", .num 0)]))]) ∧
    (on_run_start ⟨some ⟨"d" ++ "/run.memray", false⟩⟩
        [("d" ++ "/run.timing.json", .json (.obj [("start", .num 0)]))]
        1 "d").outcome =
      .ok (⟨some ⟨"d" ++ "/run.memray", false⟩⟩,
        [("d" ++ "/run.timing.json", .json (.obj [("start", .num 1)]))]) :=
  ⟨rfl, rfl⟩

/-- C2 (amended): a start while the same scope is already Tracking does
not fail; every start handler unconditionally succeeds and overwrites the
tracking state with a fresh handle (memray variants) or a fresh empty
sampler (psutil variant), with no memory of the previous one. -/
theorem C2_double_start_silently_resets :
    ∀ (c : MemrayCallback) (p : PsutilCallback) (fs : FS) (now : ℚ)
      (dir name : String),
      on_run_start c fs now dir =
        ⟨[], [.opened ⟨dir ++ "/run.memray", false⟩],
          .ok (⟨some ⟨dir ++ "/run.memray", false⟩⟩,
            timingBegin fs now (dir ++ "/run.timing.json"))⟩ ∧
      on_multirun_start c fs now dir =
        ⟨[], [.opened ⟨dir ++ "/multirun.memray", true⟩],
          .ok (⟨some ⟨dir ++ "/multirun.memray", true⟩⟩,
            timingBegin fs now (dir ++ "/multirun.timing.json"))⟩ ∧
      on_job_start c fs now dir name =
        ⟨[], [.opened ⟨dir ++ "/job." ++ name ++ ".memray", false⟩],
          .ok (⟨some ⟨dir ++ "/job." ++ name ++ ".memray", false⟩⟩,
            timingBegin fs now (dir ++ "/job." ++ name ++ ".timing.json"))⟩ ∧
      psutil_on_job_start p fs now dir name =
        ⟨[], [], .ok (⟨p.sampling_interval,
            some ⟨p.sampling_interval, [], true, some ()⟩⟩,
          timingBegin fs now (dir ++ "/" ++ name ++ ".timing.json"))⟩ :=
  fun _ _ _ _ _ _ => ⟨rfl, rfl, rfl, rfl⟩

/-- C4 counterexample: with a Multirun scope tracking, `on_job_start`
replaces the Multirun tracker handle (the single shared attribute), and
the subsequent `on_multirun_end` closes the Job tracker — the handle the
Multirun start opened is never closed. -/
theorem C4_counterexample :
    (on_multirun_start MemrayCallback.init [] 0 "d").outcome =
      .ok (⟨some ⟨"d" ++ "/multirun.memray", true⟩⟩,
        [("d" ++ "/multirun.timing.json", .json (.obj [("start", .num 0)]))]) ∧
    (on_job_start ⟨some ⟨"d" ++ "/multirun.memray", true⟩⟩
        [("d" ++ "/multirun.timing.json", .json (.obj [("start", .num 0)]))]
        1 "d" "j1").outcome =
      .ok (⟨some ⟨"d" ++ "/job." ++ "j1" ++ ".memray", false⟩⟩,
        [("d" ++ "/multirun.timing.json", .json (.obj [("start", .num 0)])),
         ("d" ++ "/job." ++ "j1" ++ ".timing.json",
           .json (.obj [("start", .num 1)]))]) ∧
    (⟨"d" ++ "/job." ++ "j1" ++ ".memray", false⟩ : Tracker) ≠
      ⟨"d" ++ "/multirun.memray", true⟩ ∧
    (on_job_end ⟨some ⟨"d" ++ "/job." ++ "j1" ++ ".memray", false⟩⟩
        [("d" ++ "/multirun.timing.json", .json (.obj [("start", .num 0)])),
         ("d" ++ "/job." ++ "j1" ++ ".timing.json",
           .json (.obj [("start", .num 1)]))]
        2 "d" "j1").outcome =
      .ok (⟨some ⟨"d" ++ "/job." ++ "j1" ++ ".memray", false⟩⟩,
        [("d" ++ "/multirun.timing.json", .json (.obj [("start", .num 0)])),
         ("d" ++ "/job." ++ "j1" ++ ".timing.json",
           .json (.obj [("start", .num 1), ("end", .num 2),
             ("duration_seconds", .num (2 - 1))]))]) ∧
    (on_multirun_end ⟨some ⟨"d" ++ "/job." ++ "j1" ++ ".memray", false⟩⟩
        [("d" ++ "/multirun.timing.json", .json (.obj [("start", .num 0)])),
         ("d" ++ "/job." ++ "j1" ++ ".timing.json",
           .json (.obj [("start", .num 1), ("end", .num 2),
             ("duration_seconds", .num (2 - 1))]))]
        3 "d").events =
      [.closed ⟨"d" ++ "/job." ++ "j1" ++ ".memray", false⟩] ∧
    TrackerEvent.closed (⟨"d" ++ "/multirun.memray", true⟩ : Tracker) ∉
      (on_multirun_end ⟨some ⟨"d" ++ "/job." ++ "j1" ++ ".memray", false⟩⟩
        [("d" ++ "/multirun.timing.json", .json (.obj [("start", .num 0)])),
         ("d" ++ "/job." ++ "j1" ++ ".timing.json",
           .json (.obj [("start", .num 1), ("end", .num 2),
             ("duration_seconds", .num (2 - 1))]))]
        3 "d").events :=
  ⟨rfl, rfl, by decide, rfl, rfl, by decide⟩

/-- C4 (amended): the memray variant keeps one shared `memray_tracker`
attribute for all scope kinds: a Job start unconditionally overwrites it
with the Job tracker (whatever handle it held), and a Multirun end closes
whatever handle is current, not necessarily the one the Multirun start
opened. -/
theorem C4_shared_tracker_field :
    ∀ (c : MemrayCallback) (fs : FS) (now : ℚ) (dir name : String)
      (t : Tracker),
      (on_job_start c fs now dir name).outcome =
        .ok (⟨some ⟨dir ++ "/job." ++ name ++ ".memray", false⟩⟩,
          timingBegin fs now (dir ++ "/job." ++ name ++ ".timing.json")) ∧
      (c.memray_tracker = some t →
        (on_multirun_end c fs now dir).events = [.closed t]) := by
  intro c fs now dir name t
  refine ⟨rfl, ?_⟩
  intro h
  unfold on_multirun_end
  cases hfin : finalizeTiming fs now (dir ++ "/multirun.timing.json") with
  | error e => simp [h, hfin]
  | ok v =>
    rcases v with ⟨a, b⟩
    simp [h, hfin]

/-- C4 witness: the amended theorem applied at a concrete tracking
state. -/
theorem C4_shared_tracker_field_witness :
    (on_multirun_end ⟨some ⟨"x", true⟩⟩ [] 0 "d").events =
      [.closed ⟨"x", true⟩] :=
  (C4_shared_tracker_field ⟨some ⟨"x", true⟩⟩ [] 0 "d" "j" ⟨"x", true⟩).2 rfl

/-- C5 counterexample: a matched job-scope pair in the psutil
(memory-sampling) variant with output directory `d` and job name `j1`
writes `d/j1.timing.json` and `d/j1.profile.json` — not the claimed
`d/job.j1.timing.json` and `d/job.j1.profile.json` (the `job.` prefix
belongs to the memray variant, which writes no profile artifact). -/
theorem C5_counterexample :
    effPaths (runJobScope 1 [] 0 [] 1 "d" "j1") =
      ["d" ++ "/" ++ "j1" ++ ".timing.json",
       "d" ++ "/" ++ "j1" ++ ".profile.json"] ∧
    "d/job.j1.timing.json" ∉ effPaths (runJobScope 1 [] 0 [] 1 "d" "j1") ∧
    "d/job.j1.profile.json" ∉ effPaths (runJobScope 1 [] 0 [] 1 "d" "j1") :=
  ⟨rfl, by decide, by decide⟩

/-- C5 (amended): a matched job-scope pair in the psutil variant with
output directory `dir` and job name `name` produces exactly the two
artifacts `dir/name.timing.json` (holding `start`, `end` and
`duration_seconds = e - s`) and `dir/name.profile.json` (holding the
timing record under `timing` and, under `memory_stats`, the average, the
peak and the ordered samples, whose `rss` values are non-negative
integers). -/
theorem C5_job_scope_artifacts :
    ∀ (interval s e : ℚ) (ticks : List (ℚ × ℕ)) (dir name : String),
      ∃ (c2 : PsutilCallback) (avg : ℚ) (peak : ℕ),
        runJobScope interval [] s ticks e dir name =
          ⟨[], [], .ok (c2,
            [(dir ++ "/" ++ name ++ ".timing.json",
              .json (.obj [("start", .num s), ("end", .num e),
                ("duration_seconds", .num (e - s))])),
             (dir ++ "/" ++ name ++ ".profile.json",
              .json (.obj
                [("timing", .obj [("start", .num s), ("end", .num e),
                  ("duration_seconds", .num (e - s))]),
                 ("memory_stats", .obj
                   [("average_rss_bytes", .num avg),
                    ("peak_rss_bytes", .num (peak : ℚ)),
                    ("samples", .arr (ticks.map sampleJson))])]))])⟩ ∧
        (∀ p ∈ ticks, (0 : ℚ) ≤ (p.2 : ℚ)) := by
  intro interval s e ticks dir name
  have hne : (dir ++ "/" ++ name ++ ".timing.json") ≠
      (dir ++ "/" ++ name ++ ".profile.json") := by
    intro hh
    have h2 := string_append_left_cancel hh
    exact absurd h2 (by decide)
  have hstart : psutil_on_job_start (PsutilCallback.init interval) [] s dir name =
      ⟨[], [], .ok (⟨interval, some ⟨interval, [], true, some ()⟩⟩,
        timingBegin [] s (dir ++ "/" ++ name ++ ".timing.json"))⟩ := rfl
  have hrun : (⟨interval, [], true, some ()⟩ : MemorySampler).runTicks ticks =
      ⟨interval, ticks.map (fun p => ⟨p.1, p.2⟩), true, some ()⟩ := by
    rw [runTicks_running _ _ rfl]
    simp
  have hticks : (⟨interval, some ⟨interval, [], true, some ()⟩⟩ :
      PsutilCallback).applyTicks ticks =
      ⟨interval, some ⟨interval, ticks.map (fun p => ⟨p.1, p.2⟩), true,
        some ()⟩⟩ := by
    unfold PsutilCallback.applyTicks
    simp [hrun]
  have hfin := finalizeTiming_begin [] (dir ++ "/" ++ name ++ ".timing.json") s e
  refine ⟨⟨interval, some ⟨interval, ticks.map (fun p => ⟨p.1, p.2⟩), false,
      none⟩⟩,
    ((⟨interval, ticks.map (fun p => ⟨p.1, p.2⟩), false, none⟩ :
      MemorySampler).get_stats).average,
    ((⟨interval, ticks.map (fun p => ⟨p.1, p.2⟩), false, none⟩ :
      MemorySampler).get_stats).peak,
    ?_, fun p _ => Nat.cast_nonneg p.2⟩
  unfold runJobScope
  simp only [hstart]
  simp only [hticks]
  simp only [psutil_on_job_end]
  simp only [hfin]
  simp only [MemorySampler.stop, get_stats_data, timingBegin, fsWrite, alSet,
    List.map_map]
  simp [hne, sampleJson, Function.comp]

/-- C5 witness: the amended theorem applied at one concrete job scope
with one sample, discharging the sample-membership hypothesis there. -/
theorem C5_job_scope_artifacts_witness :
    effPaths (runJobScope 1 [] 0 [(0, 5)] 1 "d" "j1") =
      ["d" ++ "/" ++ "j1" ++ ".timing.json",
       "d" ++ "/" ++ "j1" ++ ".profile.json"] ∧
    (0 : ℚ) ≤ ((5 : ℕ) : ℚ) := by
  obtain ⟨c2, avg, peak, heq, hpos⟩ :=
    C5_job_scope_artifacts 1 0 1 [(0, 5)] "d" "j1"
  refine ⟨?_, hpos (0, 5) (by decide)⟩
  rw [effPaths, heq]
  rfl

end HydraProfiler
